import Mathlib

/-!
Shallow embedding of `src/the_snake.py`, a grid snake game, together with
theorems checking the natural-language specification against it.

Conventions of the embedding:
* A cell is a pixel coordinate pair `(x, y) : Int × Int`; the source stores
  positions in pixels that are multiples of `GRID_SIZE`.
* Python `%` on ints is true (always non-negative for a positive modulus)
  modulo, which matches `Int.emod`, Lean's `%` on `Int`.
* `random.choice(seq)` is modelled by `pyChoice i seq`: an arbitrary index
  `i : Nat` reduced modulo the sequence's length.  On an empty sequence the
  call raises `IndexError`; this is modelled by `none`.
* The snake's `reset` picks `choice([UP, DOWN, LEFT, RIGHT])`; the chosen
  direction is threaded through `move` as the extra argument `reset_dir`.
* Rendering (`draw`, `screen.fill`) and timing calls have no effect on the
  game state and are not modelled.
-/

namespace TheSnake

/-- A board position in pixels, as the source stores it: `(x, y)`. -/
abbrev Cell := Int × Int

/-- Source constant `SCREEN_WIDTH = 640`. -/
def SCREEN_WIDTH : Int := 640

/-- Source constant `SCREEN_HEIGHT = 480`. -/
def SCREEN_HEIGHT : Int := 480

/-- Source constant `GRID_SIZE = 20`. -/
def GRID_SIZE : Int := 20

/-- Source constant `GRID_WIDTH = SCREEN_WIDTH // GRID_SIZE` (= 32), kept as a
`Nat` because it only drives the `range` iteration building the grid. -/
def GRID_WIDTH : Nat := (SCREEN_WIDTH / GRID_SIZE).toNat

/-- Source constant `GRID_HEIGHT = SCREEN_HEIGHT // GRID_SIZE` (= 24). -/
def GRID_HEIGHT : Nat := (SCREEN_HEIGHT / GRID_SIZE).toNat

/-- Direction constant `UP = (0, -1)`. -/
def UP : Cell := (0, -1)

/-- Direction constant `DOWN = (0, 1)`. -/
def DOWN : Cell := (0, 1)

/-- Direction constant `LEFT = (-1, 0)`. -/
def LEFT : Cell := (-1, 0)

/-- Direction constant `RIGHT = (1, 0)`. -/
def RIGHT : Cell := (1, 0)

/-- The grid center `(SCREEN_WIDTH // 2, SCREEN_HEIGHT // 2)` assigned by
`GameObject.__init__` as the initial `position`. -/
def center : Cell := (SCREEN_WIDTH / 2, SCREEN_HEIGHT / 2)

/-- The set comprehension in `Apple.randomize_position`:
`(x * GRID_SIZE, y * GRID_SIZE)` for `x in range(GRID_WIDTH)`,
`y in range(GRID_HEIGHT)`, as a list (the source materialises a set and then a
tuple; only membership matters for the claims). -/
def all_cells : List Cell :=
  (List.range GRID_WIDTH).flatMap fun x =>
    (List.range GRID_HEIGHT).map fun y =>
      ((x : Int) * GRID_SIZE, (y : Int) * GRID_SIZE)

/-- The free cells `available_positions - set(snake_positions)` computed by
`Apple.randomize_position` when `snake_positions` is a collection of cells. -/
def free_cells (snake_positions : List Cell) : List Cell :=
  all_cells.filter fun c => decide (c ∉ snake_positions)

/-- Python `random.choice(seq)`: some arbitrary element of `seq`, modelled by
an arbitrary index reduced modulo the length; `none` models the `IndexError`
raised on an empty sequence (`i % 0 = i` and `get?` of `[]` is `none`). -/
def pyChoice (i : Nat) (seq : List Cell) : Option Cell :=
  seq.get? (i % seq.length)

/-- `Apple.randomize_position(snake_positions)` for a proper collection of
cells: choose among the free cells; `none` models the uncaught `IndexError`
when no free cell remains (the apple's `position` is then left unchanged,
since the exception fires before the assignment). -/
def randomize_position (i : Nat) (snake_positions : List Cell) : Option Cell :=
  pyChoice i (free_cells snake_positions)

/-- In `Apple.__init__`, `randomize_position(self.position)` is called with the
bare tuple `(320, 240)` rather than a list of positions, so Python's
`set(snake_positions)` is the set of the two integers 320 and 240.  Set
difference removes elements of `available_positions` equal to `320` or `240`;
a coordinate pair never equals an integer, so nothing is removed and the
available set at construction is the whole grid. -/
def apple_init_available : List Cell := all_cells

/-- State of a `Snake` instance: the fields set by `Snake.__init__`
(`body_color` is rendering-only and omitted). -/
structure SnakeS where
  length : Nat
  positions : List Cell
  old_position : Option Cell
  direction : Cell
  next_direction : Option Cell
  deriving DecidableEq, Repr

/-- `Snake.__init__(direction)`: length 1, single body cell at the grid
center, no old position, no pending direction. -/
def snakeInit (direction : Cell) : SnakeS :=
  { length := 1
    positions := [center]
    old_position := none
    direction := direction
    next_direction := none }

/-- `Snake.update_direction`: if a pending direction is set (direction tuples
are always truthy in Python), it becomes the current direction and the
pending slot is cleared. -/
def update_direction (s : SnakeS) : SnakeS :=
  match s.next_direction with
  | some d => { s with direction := d, next_direction := none }
  | none => s

/-- The `new_position` computed at the top of `Snake.move`:
`((head.x + dx * GRID_SIZE) % SCREEN_WIDTH, (head.y + dy * GRID_SIZE) % SCREEN_HEIGHT)`.
`positions[0]` is `headI` (reachable snakes have a non-empty body). -/
def newHead (s : SnakeS) : Cell :=
  ((s.positions.headI.1 + s.direction.1 * GRID_SIZE) % SCREEN_WIDTH,
   (s.positions.headI.2 + s.direction.2 * GRID_SIZE) % SCREEN_HEIGHT)

/-- `Snake.move(apple)`: if the new head is not in `positions[2:]`, prepend
it, increment `length` when an apple was passed (an `Apple` object is always
truthy), and pop the last cell into `old_position` when the body got longer
than `length`; otherwise `reset()`, i.e. `__init__` with a random direction
(threaded in as `reset_dir`). -/
def move (s : SnakeS) (ate : Bool) (reset_dir : Cell) : SnakeS :=
  let new_position := newHead s
  if new_position ∉ s.positions.drop 2 then
    let positions := new_position :: s.positions
    let length := if ate then s.length + 1 else s.length
    if positions.length > length then
      { length := length
        positions := positions.dropLast
        old_position := positions.getLast?
        direction := s.direction
        next_direction := s.next_direction }
    else
      { length := length
        positions := positions
        old_position := s.old_position
        direction := s.direction
        next_direction := s.next_direction }
  else
    snakeInit reset_dir

/-- The pygame key codes that `handle_keys` can see on a KEYDOWN event; the
constructor `other` stands for every key not among the four arrows. -/
inductive Key where
  | up
  | down
  | left
  | right
  | other
  deriving DecidableEq, Repr

/-- The dictionary `events_dict` of `handle_keys`, keyed by
(pressed key, current direction). -/
def events_dict : List ((Key × Cell) × Cell) :=
  [((Key.up, LEFT), UP), ((Key.up, RIGHT), UP),
   ((Key.down, LEFT), DOWN), ((Key.down, RIGHT), DOWN),
   ((Key.left, DOWN), LEFT), ((Key.left, UP), LEFT),
   ((Key.right, DOWN), RIGHT), ((Key.right, UP), RIGHT)]

/-- Python `dict.get(key)`: the value stored at `key`, or `None` when the key
is absent. -/
def dict_get (kd : Key × Cell) : List ((Key × Cell) × Cell) → Option Cell
  | [] => none
  | (k, v) :: rest => if kd = k then some v else dict_get kd rest

/-- `handle_keys(game_object)` restricted to KEYDOWN events (a QUIT event
exits the process and ends the run): for each event, in order,
`next_direction = events_dict.get((event.key, direction))` — an unconditional
assignment, `None` included. -/
def handle_keys (s : SnakeS) (events : List Key) : SnakeS :=
  events.foldl
    (fun st k => { st with next_direction := dict_get (k, st.direction) events_dict })
    s

/-- State owned by `main`: the snake and the apple's position. -/
structure GameS where
  snake : SnakeS
  apple : Cell
  deriving DecidableEq, Repr

/-- One iteration of the `while True` loop in `main`, rendering and timing
stripped: drain input, apply the pending direction, then if the head equals
the apple's position call `snake.move(apple)` followed by
`apple.randomize_position(snake.get_snake_positions())`, else `snake.move()`.
The returned flag records whether the head matched the apple (the eat
branch); `none` models the uncaught `IndexError` when `randomize_position`
finds no free cell. -/
def tick (i : Nat) (reset_dir : Cell) (events : List Key) (g : GameS) :
    Option (GameS × Bool) :=
  let snake := update_direction (handle_keys g.snake events)
  if snake.positions.headI = g.apple then
    let snake := move snake true reset_dir
    (randomize_position i snake.positions).map
      (fun p => ({ snake := snake, apple := p }, true))
  else
    some ({ snake := move snake false reset_dir, apple := g.apple }, false)

/-- A length-4 snake curled into a loop: moving RIGHT from `(100, 100)` puts
the new head on `positions[3] = (120, 100)`, an element of `positions[2:]`. -/
def s_loop : SnakeS :=
  { length := 4
    positions := [((100 : Int), (100 : Int)), (100, 120), (120, 120), (120, 100)]
    old_position := none
    direction := RIGHT
    next_direction := none }

/-- A snake whose head sits on the right edge of the grid, about to wrap. -/
def s_edge : SnakeS :=
  { length := 1
    positions := [((620 : Int), (100 : Int))]
    old_position := none
    direction := RIGHT
    next_direction := none }

/-- The start state of the end-to-end scenario: fresh snake at the center
moving RIGHT, apple directly at head + RIGHT. -/
def g0 : GameS := { snake := snakeInit RIGHT, apple := (340, 240) }

/-- The game state after one tick from `g0`: the snake advanced onto the
apple's cell without eating (the head test ran before the move). -/
def g1 : GameS :=
  { snake :=
      { length := 1
        positions := [((340 : Int), (240 : Int))]
        old_position := some center
        direction := RIGHT
        next_direction := none }
    apple := (340, 240) }

/-- The snake after the second tick from `g0`: it ate on the tick that
started with its head already on the apple. -/
def snake2 : SnakeS :=
  { length := 2
    positions := [((360 : Int), (240 : Int)), (340, 240)]
    old_position := some center
    direction := RIGHT
    next_direction := none }

/-- Game state whose snake is `s_loop` with the apple placed on the snake's
head, so the tick both eats and self-collides. -/
def gLoop : GameS := { snake := s_loop, apple := (100, 100) }

/-- The result of `tick 0 UP [] gLoop`: the snake was reset by the
self-collision, yet the apple was still relocated (to the first free cell of
the reset body, `(0, 0)` under choice index 0). -/
def rLoop : GameS × Bool := ({ snake := snakeInit UP, apple := (0, 0) }, true)

/-! Helper lemmas shared by the claim theorems. -/

/-- Draining input events never changes the current direction, only the
pending one. -/
theorem handle_keys_direction (es : List Key) (s : SnakeS) :
    (handle_keys s es).direction = s.direction := by
  induction es generalizing s with
  | nil => rfl
  | cons k es ih =>
    exact (ih _).trans rfl

/-- Draining input events never changes the body or the length. -/
theorem handle_keys_positions (es : List Key) (s : SnakeS) :
    (handle_keys s es).positions = s.positions := by
  induction es generalizing s with
  | nil => rfl
  | cons k es ih =>
    exact (ih _).trans rfl

/-- After a drain ending in key `k`, the pending direction is exactly the
dictionary entry for `k` paired with the (unchanged) current direction. -/
theorem handle_keys_concat (s : SnakeS) (es : List Key) (k : Key) :
    (handle_keys s (es ++ [k])).next_direction =
      dict_get (k, s.direction) events_dict := by
  rw [handle_keys, List.foldl_append]
  show dict_get (k, (handle_keys s es).direction) events_dict = _
  rw [handle_keys_direction]

/-- A successful dictionary lookup returns one of the stored pairs. -/
theorem dict_get_mem (kd : Key × Cell) :
    ∀ l, dict_get kd l = none ∨ ∀ v₀, dict_get kd l = some v₀ → (kd, v₀) ∈ l := by
  intro l
  induction l with
  | nil => exact Or.inl rfl
  | cons kv rest ih =>
    obtain ⟨k, w⟩ := kv
    by_cases h : kd = k
    · refine Or.inr fun v₀ hv₀ => ?_
      rw [dict_get, if_pos h] at hv₀
      obtain rfl := Option.some.inj hv₀
      subst h
      exact List.mem_cons_self _ _
    · rcases ih with hnone | hmem
      · exact Or.inl (by rw [dict_get, if_neg h]; exact hnone)
      · refine Or.inr fun v₀ hv₀ => ?_
        rw [dict_get, if_neg h] at hv₀
        exact List.mem_cons_of_mem _ (hmem v₀ hv₀)

/-- The key dictionary of `handle_keys` never yields the opposite of the
direction it was queried with: every stored value is perpendicular to the
direction in its key. -/
theorem dict_get_ne_opp (k : Key) (d : Cell) (v : Cell)
    (h : dict_get (k, d) events_dict = some v) : v ≠ (-d.1, -d.2) := by
  rcases dict_get_mem (k, d) events_dict with hnone | hmem
  · rw [hnone] at h; exact absurd h (by simp)
  · have := hmem v h
    simp only [events_dict, List.mem_cons, List.not_mem_nil, or_false,
      Prod.mk.injEq] at this
    rcases this with ⟨⟨-, rfl⟩, rfl⟩ | ⟨⟨-, rfl⟩, rfl⟩ | ⟨⟨-, rfl⟩, rfl⟩ |
      ⟨⟨-, rfl⟩, rfl⟩ | ⟨⟨-, rfl⟩, rfl⟩ | ⟨⟨-, rfl⟩, rfl⟩ |
      ⟨⟨-, rfl⟩, rfl⟩ | ⟨⟨-, rfl⟩, rfl⟩ <;> decide

/-- Anything `choice` returns is an element of the sequence it drew from. -/
theorem pyChoice_mem (i : Nat) (l : List Cell) (p : Cell)
    (h : pyChoice i l = some p) : p ∈ l :=
  List.get?_mem h

/-- On a non-empty sequence, `choice` always returns an element. -/
theorem pyChoice_total (i : Nat) (l : List Cell) (h : l ≠ []) :
    ∃ p, pyChoice i l = some p := by
  have hlt : i % l.length < l.length := Nat.mod_lt _ (List.length_pos.mpr h)
  exact ⟨l.get ⟨i % l.length, hlt⟩, List.get?_eq_get hlt⟩

/-- Membership in the free-cell list. -/
theorem mem_free_cells (occ : List Cell) (p : Cell) :
    p ∈ free_cells occ ↔ p ∈ all_cells ∧ p ∉ occ := by
  simp [free_cells, List.mem_filter]

/-- With every grid cell but `c` occupied, the free pool holds exactly `c`. -/
theorem free_cells_all_but_one (c p : Cell) (hc : c ∈ all_cells) :
    p ∈ free_cells (all_cells.filter fun x => decide (x ≠ c)) ↔ p = c := by
  rw [mem_free_cells]
  simp only [List.mem_filter, decide_eq_true_eq, not_and, not_not]
  constructor
  · rintro ⟨hpa, h⟩
    exact h hpa
  · rintro rfl
    exact ⟨hc, fun _ => rfl⟩

/-- The non-collision branch of `move`, written out: prepend the new head,
bump the length on eating, pop the tail into `old_position` when the body
exceeds the length target. -/
theorem move_no_collision (s : SnakeS) (ate : Bool) (d : Cell)
    (hnc : newHead s ∉ s.positions.drop 2) :
    move s ate d =
      if (newHead s :: s.positions).length > (if ate then s.length + 1 else s.length) then
        { length := if ate then s.length + 1 else s.length
          positions := (newHead s :: s.positions).dropLast
          old_position := (newHead s :: s.positions).getLast?
          direction := s.direction
          next_direction := s.next_direction }
      else
        { length := if ate then s.length + 1 else s.length
          positions := newHead s :: s.positions
          old_position := s.old_position
          direction := s.direction
          next_direction := s.next_direction } := by
  simp only [move]
  rw [if_pos hnc]

/-- C4: whenever the computed new head lies in `positions[2:]`, `move`
discards the movement and resets the snake: length 1, a single body cell at
the grid center, pending direction and tracked removed-tail cell cleared, and
the direction is the freshly drawn one, an element of the four unit
directions. -/
theorem C4_reset (s : SnakeS) (d : Cell) (ate : Bool)
    (hc : newHead s ∈ s.positions.drop 2) (hd : d ∈ [UP, DOWN, LEFT, RIGHT]) :
    move s ate d = snakeInit d ∧
    (move s ate d).length = 1 ∧
    (move s ate d).positions = [center] ∧
    (move s ate d).next_direction = none ∧
    (move s ate d).old_position = none ∧
    (move s ate d).direction ∈ [UP, DOWN, LEFT, RIGHT] := by
  have hm : move s ate d = snakeInit d := by
    simp only [move]
    rw [if_neg (not_not_intro hc)]
  refine ⟨hm, ?_, ?_, ?_, ?_, ?_⟩ <;> rw [hm]
  · rfl
  · rfl
  · rfl
  · rfl
  · exact hd

/-- Witness for C4 at the curled snake `s_loop`. -/
theorem C4_reset_witness :
    move s_loop false UP = snakeInit UP ∧
    (move s_loop false UP).length = 1 ∧
    (move s_loop false UP).positions = [center] ∧
    (move s_loop false UP).next_direction = none ∧
    (move s_loop false UP).old_position = none ∧
    (move s_loop false UP).direction ∈ [UP, DOWN, LEFT, RIGHT] :=
  C4_reset s_loop UP false (by decide) (by decide)

/-- C5: on every non-colliding move of a snake with a non-empty body, the new
head is `wrap(oldHead + direction)` — coordinatewise true modulo by the
screen extents — and therefore lies inside the board. -/
theorem C5_wrap (s : SnakeS) (ate : Bool) (d : Cell)
    (hne : s.positions ≠ []) (hnc : newHead s ∉ s.positions.drop 2) :
    (move s ate d).positions.headI = newHead s ∧
    0 ≤ (newHead s).1 ∧ (newHead s).1 < SCREEN_WIDTH ∧
    0 ≤ (newHead s).2 ∧ (newHead s).2 < SCREEN_HEIGHT := by
  constructor
  · rw [move_no_collision s ate d hnc]
    by_cases hgt :
        (newHead s :: s.positions).length > (if ate then s.length + 1 else s.length)
    · rw [if_pos hgt]
      show ((newHead s :: s.positions).dropLast).headI = newHead s
      rw [List.dropLast_cons_of_ne_nil hne]
      rfl
    · rw [if_neg hgt]
      rfl
  · show (0 ≤ _ % SCREEN_WIDTH ∧ _ % SCREEN_WIDTH < SCREEN_WIDTH ∧
      0 ≤ _ % SCREEN_HEIGHT ∧ _ % SCREEN_HEIGHT < SCREEN_HEIGHT)
    refine ⟨Int.emod_nonneg _ ?_, Int.emod_lt_of_pos _ ?_,
      Int.emod_nonneg _ ?_, Int.emod_lt_of_pos _ ?_⟩ <;> decide

/-- Witness for C5 at the right edge: head `(620, 100)` moving RIGHT wraps to
`(0, 100)`. -/
theorem C5_wrap_witness :
    ((move s_edge false UP).positions.headI = newHead s_edge ∧
      0 ≤ (newHead s_edge).1 ∧ (newHead s_edge).1 < SCREEN_WIDTH ∧
      0 ≤ (newHead s_edge).2 ∧ (newHead s_edge).2 < SCREEN_HEIGHT) ∧
    newHead s_edge = ((0 : Int), (100 : Int)) :=
  ⟨C5_wrap s_edge false UP (by decide) (by decide), by decide⟩

/-- C6: from any state with a non-empty body satisfying
`len(positions) = length`, a `move` call (eating or not, reset included)
yields a state with a non-empty body still satisfying
`len(positions) = length` — no transient overgrowth survives the tick. -/
theorem C6_no_overgrowth (s : SnakeS) (ate : Bool) (d : Cell)
    (hne : s.positions ≠ []) (hlen : s.positions.length = s.length) :
    (move s ate d).positions ≠ [] ∧
    (move s ate d).positions.length = (move s ate d).length := by
  have hpos : 0 < s.positions.length := List.length_pos.mpr hne
  have hL : (if ate then s.length + 1 else s.length) = s.length ∨
      (if ate then s.length + 1 else s.length) = s.length + 1 := by
    rcases ate with _ | _
    · exact Or.inl (if_neg (by decide))
    · exact Or.inr (if_pos rfl)
  by_cases hcol : newHead s ∉ s.positions.drop 2
  · rw [move_no_collision s ate d hcol]
    by_cases hgt :
        (newHead s :: s.positions).length > (if ate then s.length + 1 else s.length)
    · rw [if_pos hgt]
      rw [List.length_cons] at hgt
      constructor
      · show (newHead s :: s.positions).dropLast ≠ []
        rw [← List.length_pos, List.length_dropLast, List.length_cons]
        omega
      · show ((newHead s :: s.positions).dropLast).length =
          (if ate then s.length + 1 else s.length)
        rw [List.length_dropLast, List.length_cons]
        rcases hL with h | h <;> omega
    · rw [if_neg hgt]
      rw [List.length_cons] at hgt
      constructor
      · exact List.cons_ne_nil _ _
      · show (newHead s :: s.positions).length = (if ate then s.length + 1 else s.length)
        rw [List.length_cons]
        rcases hL with h | h <;> omega
  · simp only [move]
    rw [if_neg hcol]
    exact ⟨List.cons_ne_nil _ _, rfl⟩

/-- Witness for C6 at the fresh snake. -/
theorem C6_no_overgrowth_witness :
    (move (snakeInit RIGHT) false UP).positions ≠ [] ∧
    (move (snakeInit RIGHT) false UP).positions.length =
      (move (snakeInit RIGHT) false UP).length :=
  C6_no_overgrowth (snakeInit RIGHT) false UP (by decide) (by decide)

/-- C7: whenever some grid cell is left free by the occupied set, the
relocation call returns a new position, and any position it returns is a grid
cell outside the occupied set; when the occupied set covers all cells but
one, the relocation lands on exactly that single remaining free cell.  (In
the embedding the call produces only the apple's new position, so no other
state is touched.) -/
theorem C7_relocation (i : Nat) (occ : List Cell) (c p : Cell) :
    (randomize_position i occ = some p → p ∈ all_cells ∧ p ∉ occ) ∧
    ((∃ q, q ∈ all_cells ∧ q ∉ occ) → ∃ q, randomize_position i occ = some q) ∧
    (c ∈ all_cells →
      randomize_position i (all_cells.filter fun x => decide (x ≠ c)) = some c) := by
  refine ⟨?_, ?_, ?_⟩
  · intro hp
    exact (mem_free_cells occ p).mp (pyChoice_mem _ _ _ hp)
  · rintro ⟨q, hqa, hqo⟩
    exact pyChoice_total i (free_cells occ)
      (List.ne_nil_of_mem ((mem_free_cells occ q).mpr ⟨hqa, hqo⟩))
  · intro hc
    have hcm : c ∈ free_cells (all_cells.filter fun x => decide (x ≠ c)) :=
      (free_cells_all_but_one c c hc).mpr rfl
    obtain ⟨q, hq⟩ := pyChoice_total i _ (List.ne_nil_of_mem hcm)
    obtain rfl := (free_cells_all_but_one c q hc).mp (pyChoice_mem _ _ _ hq)
    exact hq

set_option maxRecDepth 100000 in
/-- Witness for C7: relocating with only the center occupied succeeds and (at
choice index 0) lands on `(0, 0)`, a grid cell off the occupied set; with
every cell but `(0, 0)` occupied, the relocation lands exactly on `(0, 0)`. -/
theorem C7_relocation_witness :
    (((0 : Int), (0 : Int)) ∈ all_cells ∧ ((0 : Int), (0 : Int)) ∉ [center]) ∧
    (∃ q, randomize_position 0 [center] = some q) ∧
    randomize_position 0 (all_cells.filter fun x => decide (x ≠ ((0 : Int), (0 : Int)))) =
      some ((0 : Int), (0 : Int)) :=
  ⟨(C7_relocation 0 [center] ((0 : Int), (0 : Int)) ((0 : Int), (0 : Int))).1 (by decide),
   (C7_relocation 0 [center] ((0 : Int), (0 : Int)) ((0 : Int), (0 : Int))).2.1
     ⟨((0 : Int), (0 : Int)), by decide, by decide⟩,
   (C7_relocation 0 [center] ((0 : Int), (0 : Int)) ((0 : Int), (0 : Int))).2.2 (by decide)⟩

/-- C9: one drain-and-apply step never leaves the snake pointing opposite to
the direction it had when the tick began; at every reachable tick boundary
the pending slot is empty (it was consumed by the previous
`update_direction`) and the direction is one of the four unit vectors. -/
theorem C9_no_reversal (s : SnakeS) (es : List Key)
    (hd : s.direction ∈ [UP, DOWN, LEFT, RIGHT]) (hn : s.next_direction = none) :
    (update_direction (handle_keys s es)).direction ≠
      (-s.direction.1, -s.direction.2) := by
  have hself : s.direction ≠ (-s.direction.1, -s.direction.2) := by
    simp only [List.mem_cons, List.not_mem_nil, or_false] at hd
    rcases hd with h | h | h | h <;> rw [h] <;> decide
  rcases List.eq_nil_or_concat es with rfl | ⟨l, k, rfl⟩
  · show (update_direction s).direction ≠ _
    rw [update_direction, hn]
    exact hself
  · have hnext := handle_keys_concat s l k
    rw [List.concat_eq_append] at *
    cases hx : (handle_keys s (l ++ [k])).next_direction with
    | none =>
      rw [update_direction, hx, handle_keys_direction]
      exact hself
    | some v =>
      rw [update_direction, hx]
      show v ≠ _
      rw [hnext] at hx
      exact dict_get_ne_opp k s.direction v hx

/-- Witness for C9: a fresh snake moving RIGHT that receives a LEFT key press
does not end the step moving LEFT. -/
theorem C9_no_reversal_witness :
    (update_direction (handle_keys (snakeInit RIGHT) [Key.left])).direction ≠
      (-(snakeInit RIGHT).direction.1, -(snakeInit RIGHT).direction.2) :=
  C9_no_reversal (snakeInit RIGHT) [Key.left] (by decide) rfl

/-- C10: when the occupied set covers every grid cell, the relocation has an
empty pool and `choice` fails (the `IndexError` is modelled by `none`; the
exception fires before the assignment, so the apple's position is left
unchanged). -/
theorem C10_exhausted (i : Nat) (occ : List Cell)
    (hocc : ∀ c ∈ all_cells, c ∈ occ) :
    randomize_position i occ = none := by
  have hfree : free_cells occ = [] := by
    rw [free_cells, List.filter_eq_nil_iff]
    intro a ha
    simpa using hocc a ha
  rw [randomize_position, hfree]
  rfl

/-- Witness for C10: occupying the whole grid with `all_cells` itself. -/
theorem C10_exhausted_witness : randomize_position 0 all_cells = none :=
  C10_exhausted 0 all_cells (fun _ hc => hc)

/-- C3, counterexample to the claim as stated: with the snake moving RIGHT, a
valid UP request sets the pending direction, but a following LEFT request in
the same drain does not leave it unchanged — it wipes it back to `None`,
because the assignment `next_direction = events_dict.get(...)` also stores
the `None` returned for an absent key. -/
theorem C3_counterexample :
    (handle_keys (snakeInit RIGHT) [Key.up]).next_direction = some UP ∧
    (handle_keys (snakeInit RIGHT) [Key.up, Key.left]).next_direction = none := by
  decide

/-- C3, amended: a request that is absent from the key dictionary for the
current direction — the exact opposite of the current direction, the current
direction itself, or an unmapped key — sets the pending direction to `None`,
discarding any earlier valid request in the same drain; and whatever the
drain leaves pending is a dictionary value for the current direction, never
its exact opposite. -/
theorem C3_pending (s : SnakeS) (es : List Key) (k : Key) :
    (dict_get (k, s.direction) events_dict = none →
      (handle_keys s (es ++ [k])).next_direction = none) ∧
    (∀ v, (handle_keys s (es ++ [k])).next_direction = some v →
      dict_get (k, s.direction) events_dict = some v ∧
        v ≠ (-s.direction.1, -s.direction.2)) := by
  have h := handle_keys_concat s es k
  constructor
  · intro h0
    rw [h, h0]
  · intro v hv
    rw [h] at hv
    exact ⟨hv, dict_get_ne_opp k s.direction v hv⟩

/-- Witness for C3 at the counterexample's inputs: after a valid UP request,
an opposite (LEFT while RIGHT) request ends the drain with no pending
direction. -/
theorem C3_pending_witness :
    (handle_keys (snakeInit RIGHT) ([Key.up] ++ [Key.left])).next_direction = none :=
  (C3_pending (snakeInit RIGHT) [Key.up] Key.left).1 (by decide)

set_option maxRecDepth 100000 in
/-- C2, failing run: at construction the apple's `randomize_position` is
called with the bare tuple `(320, 240)`, so the available pool is the whole
grid (see `apple_init_available`) and the draw at index 396 places the apple
exactly on the snake's starting cell, the grid center. -/
theorem C2_item_on_snake_start :
    pyChoice 396 apple_init_available = some center ∧
    center = (snakeInit RIGHT).positions.headI := by
  decide

/-- C1, counterexample to the claim as stated: from the fresh snake at the
center moving RIGHT with the apple at head + RIGHT, one tick of the loop
reports no eating — `main` compares the head with the apple before moving —
so the length stays 1 and the apple does not move. -/
theorem C1_counterexample :
    tick 0 UP [] g0 = some (g1, false) ∧
    g1.snake.length = 1 ∧
    g1.apple = g0.apple := by
  decide

/-- C1, amended: the head-to-apple comparison runs before the move, so the
tick that moves the snake onto the apple's cell does not eat (length stays 1,
body `[newHead]`, apple unchanged); the next tick starts with the head on the
apple and eats: length becomes 2, body `[newHead2, newHead1]`, and the apple
relocates to some cell outside the body. -/
theorem C1_eat_on_second_tick (i : Nat) :
    tick 0 UP [] g0 = some (g1, false) ∧
    g1.snake.length = 1 ∧
    g1.snake.positions = [((340 : Int), (240 : Int))] ∧
    ∃ p, tick i UP [] g1 = some ({ snake := snake2, apple := p }, true) ∧
      p ∉ snake2.positions := by
  refine ⟨by decide, by decide, by decide, ?_⟩
  have hred : tick i UP [] g1 =
      (randomize_position i snake2.positions).map
        (fun p => ({ snake := snake2, apple := p }, true)) := rfl
  have hmem : ((0 : Int), (0 : Int)) ∈ free_cells snake2.positions := by decide
  obtain ⟨p, hp⟩ :=
    pyChoice_total i (free_cells snake2.positions) (List.ne_nil_of_mem hmem)
  refine ⟨p, ?_, ?_⟩
  · rw [hred, show randomize_position i snake2.positions = some p from hp]
    rfl
  · exact ((mem_free_cells snake2.positions p).mp (pyChoice_mem _ _ _ hp)).2

set_option maxRecDepth 100000 in
/-- C8, counterexample to the claim as stated: `gLoop`'s tick starts with the
head on the apple and the move self-collides, resetting the snake — yet the
apple is still relocated, because `main` calls `randomize_position`
unconditionally after `snake.move(apple)` in the eat branch. -/
theorem C8_counterexample :
    tick 0 UP [] gLoop = some rLoop ∧
    rLoop.1.snake = snakeInit UP ∧
    rLoop.1.apple ≠ gLoop.apple := by
  decide

/-- C8, amended: on a tick whose drained-and-updated snake does not have its
head on the apple, the apple stays put and the tick reports no eating; on a
tick whose head is on the apple, the tick reports eating, the snake is the
result of `move` (reset included), and the apple is relocated to a free cell
of that — possibly reset — body, whether or not the move succeeded. -/
theorem C8_relocate_despite_reset (i : Nat) (d : Cell) (es : List Key)
    (g : GameS) (r : GameS × Bool) (hr : tick i d es g = some r) :
    ((update_direction (handle_keys g.snake es)).positions.headI ≠ g.apple →
      r.1.apple = g.apple ∧ r.2 = false) ∧
    ((update_direction (handle_keys g.snake es)).positions.headI = g.apple →
      r.2 = true ∧
      r.1.snake = move (update_direction (handle_keys g.snake es)) true d ∧
      r.1.apple ∈ free_cells r.1.snake.positions) := by
  simp only [tick] at hr
  constructor
  · intro hne
    rw [if_neg hne] at hr
    obtain rfl := Option.some.inj hr
    exact ⟨rfl, rfl⟩
  · intro heq
    rw [if_pos heq] at hr
    obtain ⟨p, hp, rfl⟩ := Option.map_eq_some'.mp hr
    exact ⟨rfl, rfl, pyChoice_mem _ _ _ hp⟩

set_option maxRecDepth 100000 in
/-- Witness for C8 at `gLoop`: the eat-and-collide tick. -/
theorem C8_relocate_despite_reset_witness :
    ((update_direction (handle_keys gLoop.snake [])).positions.headI ≠ gLoop.apple →
      rLoop.1.apple = gLoop.apple ∧ rLoop.2 = false) ∧
    ((update_direction (handle_keys gLoop.snake [])).positions.headI = gLoop.apple →
      rLoop.2 = true ∧
      rLoop.1.snake = move (update_direction (handle_keys gLoop.snake [])) true UP ∧
      rLoop.1.apple ∈ free_cells rLoop.1.snake.positions) :=
  C8_relocate_despite_reset 0 UP [] gLoop rLoop (by decide)

end TheSnake
